import Mathlib

/-!
Shallow embedding of the two reporting scripts of the repository
(generate-dashboard.py and tools/visualization/visualize-benchmark-results.py).

Both scripts read a JSON array of benchmark records, aggregate by a
five-valued frequency category and render statistics.  The embedding models
each record as a structure of optional typed fields (a field is `none` when
the JSON object lacks the key), Python exceptions as `Except PyErr`, and
IEEE arithmetic idealised over `ℚ` (all numbers occurring here are small
decimals, exactly representable).  Python `int(...)` and `float(...)` on
strings are modelled on the decimal fragment the scripts can meet
(optional sign, digits, optional fractional part), which is the behaviour
relevant to every claim.
-/

/-- Python exceptions that the embedded code can raise. -/
inductive PyErr where
  | keyError : PyErr
  | valueError : PyErr
deriving DecidableEq, Repr

/-- Test whether the second character list occurs at the head of the first. -/
def listStartsWith : List Char → List Char → Bool
  | _, [] => true
  | [], _ :: _ => false
  | a :: s, b :: p => a == b && listStartsWith s p

/-- Replacement of every non-overlapping occurrence of `pat` in `s` by `rep`,
scanning left to right, as Python `s.replace(pat, rep)` does for a nonempty
pattern.  The fuel argument only forces structural termination; `s.length`
steps always suffice because each step consumes at least one character. -/
def pyReplaceFuel (pat rep : List Char) : Nat → List Char → List Char
  | 0, s => s
  | _ + 1, [] => []
  | fuel + 1, c :: s =>
    if listStartsWith (c :: s) pat then
      rep ++ pyReplaceFuel pat rep fuel (List.drop (pat.length - 1) s)
    else
      c :: pyReplaceFuel pat rep fuel s

/-- Model of Python `s.replace(pat, rep)` for a nonempty pattern. -/
def pyReplace (s pat rep : String) : String :=
  ⟨pyReplaceFuel pat.data rep.data s.data.length s.data⟩

/-- Split at every occurrence of the separator character, as Python
`s.split(sep)` does for a one-character separator: the empty string yields
one empty part, and adjacent separators yield empty parts. -/
def pySplitChar (sep : Char) : List Char → List (List Char)
  | [] => [[]]
  | c :: rest =>
    match pySplitChar sep rest with
    | [] => [[c]]
    | h :: t => if c == sep then [] :: h :: t else (c :: h) :: t

/-- Model of Python `s.split(sep)` for a one-character separator string. -/
def pySplit (s : String) (sep : Char) : List String :=
  (pySplitChar sep s.data).map fun l => ⟨l⟩

/-- Drop leading whitespace characters. -/
def dropLeadingWs : List Char → List Char
  | [] => []
  | c :: rest => if c.isWhitespace then dropLeadingWs rest else c :: rest

/-- Model of Python `s.strip()`: remove leading and trailing whitespace. -/
def pyStrip (s : List Char) : List Char :=
  ((dropLeadingWs ((dropLeadingWs s).reverse)).reverse)

/-- Value of a nonempty all-digit character run read in base 10. -/
def digitsToNat (s : List Char) : Nat :=
  s.foldl (fun acc c => acc * 10 + (c.toNat - 48)) 0

/-- Sign handling shared by the numeric conversions: Python `int` and
`float` accept one optional leading `+` or `-` after stripping whitespace. -/
def splitSign (t : List Char) : Int × List Char :=
  match t with
  | '-' :: rest => (-1, rest)
  | '+' :: rest => (1, rest)
  | _ => (1, t)

/-- Model of Python `int(s)` for string arguments: strip whitespace, then an
optional sign followed by a nonempty digit run; anything else raises
(here: `none`). -/
def pyInt (s : String) : Option Int :=
  let (sign, digits) := splitSign (pyStrip s.data)
  if digits.length > 0 && digits.all Char.isDigit then
    some (sign * (digitsToNat digits : Int))
  else none

/-- Model of Python `float(s)` on the decimal fragment the scripts can meet:
strip whitespace, optional sign, then either a digit run or
`intpart.fracpart` with at least one digit on either side. -/
def pyFloat (s : String) : Option ℚ :=
  let (sign, body) := splitSign (pyStrip s.data)
  match pySplitChar '.' body with
  | [ip] =>
    if ip.length > 0 && ip.all Char.isDigit then
      some ((sign : ℚ) * (digitsToNat ip : ℚ))
    else none
  | [ip, fp] =>
    if (ip.length > 0 || fp.length > 0) && ip.all Char.isDigit && fp.all Char.isDigit then
      some ((sign : ℚ) * ((digitsToNat ip : ℚ) + (digitsToNat fp : ℚ) / (10 : ℚ) ^ fp.length))
    else none
  | _ => none

/-- One decoded JSON object of the input array.  A field is `none` when the
object lacks the key; present fields carry the documented type. -/
structure Item where
  recommendedFrequency : Option String
  goal : Option String
  context : Option String
  economicValue : Option ℚ
  timestamp : Option String
  wasSuccessful : Option Bool
  executionTime : Option String
deriving DecidableEq, Repr

/-- The fixed five-category order used by every aggregated view in both
scripts (`frequencies = [...]` in the source). -/
def fiveFrequencies : List String :=
  ["immediate", "continuous", "analysis", "optimization", "evolution"]

namespace Dashboard

/-- Execution-time parsing of generate-dashboard.py, lines 67-82: first
`int(s.replace(" Ticks", "")) / 10000`; on failure, split on `":"`; with
exactly three parts, `(int(h)*3600 + int(m)*60 + float(sec)) * 1000`, where
a part that fails to parse raises outside the `except` block; with any
other number of parts, `ms = 0`. -/
def parseMs (s : String) : Except PyErr ℚ :=
  match pyInt (pyReplace s " Ticks" "") with
  | some n => .ok ((n : ℚ) / 10000)
  | none =>
    match pySplit s ':' with
    | [h, m, sec] =>
      match pyFloat sec, pyInt h, pyInt m with
      | some secv, some hv, some mv =>
        .ok (((hv : ℚ) * 3600 + (mv : ℚ) * 60 + secv) * 1000)
      | _, _, _ => .error .valueError
    | _ => .ok 0

/-- The parallel result lists built by analyze_data of generate-dashboard.py
(only the lists the script later reads). -/
structure Results where
  sk_frequencies : List String
  sk_economic_values : List ℚ
  sk_processing_times : List ℚ
  goals : List String
  contexts : List String
  timestamps : List String
  successful : List Bool
deriving DecidableEq, Repr

/-- analyze_data of generate-dashboard.py, lines 29-84: skip items without
`RecommendedFrequency`; for kept items append frequency, economic value
(default 0), goal / context / timestamp (default empty), success flag
(default true); when `ExecutionTime` is present append its parsed
millisecond value (which may raise). -/
def analyze_data : List Item → Except PyErr Results
  | [] => .ok ⟨[], [], [], [], [], [], []⟩
  | item :: rest =>
    match item.recommendedFrequency with
    | none => analyze_data rest
    | some freq =>
      let goal := item.goal.getD ""
      let context := item.context.getD ""
      let econ := item.economicValue.getD 0
      let ts := item.timestamp.getD ""
      let succ := item.wasSuccessful.getD true
      match item.executionTime with
      | none =>
        (analyze_data rest).map fun r =>
          ⟨freq :: r.sk_frequencies, econ :: r.sk_economic_values,
           r.sk_processing_times, goal :: r.goals, context :: r.contexts,
           ts :: r.timestamps, succ :: r.successful⟩
      | some et =>
        match parseMs et with
        | .error e => .error e
        | .ok ms =>
          (analyze_data rest).map fun r =>
            ⟨freq :: r.sk_frequencies, econ :: r.sk_economic_values,
             ms :: r.sk_processing_times, goal :: r.goals, context :: r.contexts,
             ts :: r.timestamps, succ :: r.successful⟩

end Dashboard

namespace Viz

/-- Execution-time handling of visualize-benchmark-results.py, lines 54-58:
`int(item["ExecutionTime"].replace(" Ticks", "")) / 10000` with no
try/except, so any string that `int` rejects raises. -/
def parseMs (s : String) : Except PyErr ℚ :=
  match pyInt (pyReplace s " Ticks" "") with
  | some n => .ok ((n : ℚ) / 10000)
  | none => .error .valueError

/-- The parallel result lists built by analyze_data of
visualize-benchmark-results.py (only the lists the script later reads). -/
structure Results where
  sk_frequencies : List String
  sk_economic_values : List ℚ
  sk_processing_times : List ℚ
deriving DecidableEq, Repr

/-- analyze_data of visualize-benchmark-results.py, lines 25-60: skip items
without `RecommendedFrequency`; read `item["Goal"]` with a plain subscript
(KeyError when absent); append frequency and economic value (default 0);
when `ExecutionTime` is present append the tick conversion (which raises on
a non-tick string). -/
def analyze_data : List Item → Except PyErr Results
  | [] => .ok ⟨[], [], []⟩
  | item :: rest =>
    match item.recommendedFrequency with
    | none => analyze_data rest
    | some freq =>
      match item.goal with
      | none => .error .keyError
      | some _ =>
        let econ := item.economicValue.getD 0
        match item.executionTime with
        | none =>
          (analyze_data rest).map fun r =>
            ⟨freq :: r.sk_frequencies, econ :: r.sk_economic_values,
             r.sk_processing_times⟩
        | some et =>
          match parseMs et with
          | .error e => .error e
          | .ok ms =>
            (analyze_data rest).map fun r =>
              ⟨freq :: r.sk_frequencies, econ :: r.sk_economic_values,
               ms :: r.sk_processing_times⟩

end Viz

/-- Arithmetic mean as computed by `np.mean` on a list of exact numbers. -/
def mean (l : List ℚ) : ℚ := l.sum / l.length

/-- The per-frequency grouping both scripts build with
`for freq, v in zip(results[...], values): d[freq].append(v)` followed by
`d.get(freq, [])`: the values of the zip pairs whose first component is the
given frequency, in order.  Note the grouping keys come from `zip`, so when
the two lists have different lengths the longer tail is silently dropped. -/
def groupByFreq {α : Type} (freqs : List String) (vals : List α) (f : String) : List α :=
  ((freqs.zip vals).filter fun p => p.1 == f).map Prod.snd

/-- Count of one frequency label, `Counter(...).get(freq, 0)`. -/
def countFor (freqs : List String) (f : String) : Nat := freqs.count f

/-- The `sk_counts` list of `create_frequency_chart` /
`create_frequency_distribution`: counts of the five labels in fixed order. -/
def freqCounts (freqs : List String) : List Nat :=
  fiveFrequencies.map (countFor freqs)

/-- Loop body of the average-by-frequency charts: mean of the grouped values,
or 0 when the group is empty. -/
def avgFor (freqs : List String) (vals : List ℚ) (f : String) : ℚ :=
  let vs := groupByFreq freqs vals f
  if vs.isEmpty then 0 else mean vs

/-- The `avg_values` / `avg_times` list over the five labels in fixed order
(used by the economic-value and processing-time charts of both scripts). -/
def avgByFreq (freqs : List String) (vals : List ℚ) : List ℚ :=
  fiveFrequencies.map (avgFor freqs vals)

/-- Loop body of `create_success_rate_chart`:
`sum(successes) / len(successes) * 100` over the grouped success flags
(Python sums booleans as the number of `True`), or 0 when the group is
empty. -/
def rateFor (freqs : List String) (succ : List Bool) (f : String) : ℚ :=
  let ss := groupByFreq freqs succ f
  if ss.isEmpty then 0 else ((ss.countP id : ℚ) / (ss.length : ℚ)) * 100

/-- The `success_rates` list of `create_success_rate_chart` over the five
labels in fixed order. -/
def successRates (freqs : List String) (succ : List Bool) : List ℚ :=
  fiveFrequencies.map (rateFor freqs succ)

namespace Dashboard

/-- create_processing_time_chart, lines 174-213: returns no chart when no
processing times were collected; otherwise the five per-frequency averages
computed from the zip of `sk_frequencies` with `sk_processing_times`. -/
def create_processing_time_chart (r : Results) : Option (List ℚ) :=
  if r.sk_processing_times.isEmpty then none
  else some (avgByFreq r.sk_frequencies r.sk_processing_times)

/-- The numeric content of the HTML dashboard assembled by
`generate_html_dashboard`, lines 254-304: the four summary metric cards,
the per-frequency breakdown rows (label, count, percentage) and the sample
decisions table rows. -/
structure Summary where
  total_decisions : Nat
  avg_economic_value : ℚ
  avg_processing_time : ℚ
  success_rate : ℚ
  freq_metrics : List (String × Nat × ℚ)
  sample_rows : List (String × String × String × ℚ × Bool)
deriving DecidableEq, Repr

/-- Summary computations of `generate_html_dashboard`, lines 262-304.  The
sample table reads row `i` of each parallel list for `i` below
`min(10, len(goals))`; the `getD` defaults are never used because the lists
are built in lockstep by `analyze_data`. -/
def generate_html_dashboard (r : Results) : Summary :=
  let total := r.sk_frequencies.length
  { total_decisions := total
    avg_economic_value :=
      if r.sk_economic_values.isEmpty then 0 else mean r.sk_economic_values
    avg_processing_time :=
      if r.sk_processing_times.isEmpty then 0 else mean r.sk_processing_times
    success_rate :=
      if r.successful.isEmpty then 0
      else ((r.successful.countP id : ℚ) / (r.successful.length : ℚ)) * 100
    freq_metrics := fiveFrequencies.map fun f =>
      let c := countFor r.sk_frequencies f
      (f, c, if total > 0 then ((c : ℚ) / (total : ℚ)) * 100 else 0)
    sample_rows := (List.range (min 10 r.goals.length)).map fun i =>
      (r.goals.getD i "", r.contexts.getD i "", r.sk_frequencies.getD i "",
       r.sk_economic_values.getD i 0, r.successful.getD i true) }

end Dashboard

namespace Viz

/-- create_economic_value_distribution, lines 135-176: per-frequency
economic-value groups restricted to the frequencies that have at least one
data point; when no group is nonempty the chart is skipped entirely. -/
def create_economic_value_distribution (r : Results) :
    Option (List (String × List ℚ)) :=
  let valid := (fiveFrequencies.map fun f =>
    (f, groupByFreq r.sk_frequencies r.sk_economic_values f)).filter
      fun p => !p.2.isEmpty
  if valid.isEmpty then none else some valid

/-- Gate in create_visualizations, line 77: the processing-time chart is
produced only when some processing time was collected. -/
def processing_time_chart (r : Results) : Option (List ℚ) :=
  if r.sk_processing_times.isEmpty then none
  else some (avgByFreq r.sk_frequencies r.sk_processing_times)

/-- The numeric content of the text-summary image of
`create_summary_visualization`, lines 213-258: headline metrics, the five
per-frequency count lines, and the per-frequency economic-value lines (the
latter only for frequencies with at least one value). -/
structure Summary where
  total_decisions : Nat
  avg_economic_value : ℚ
  avg_processing_time : ℚ
  freq_lines : List (String × Nat × ℚ)
  econ_lines : List (String × ℚ)
deriving DecidableEq, Repr

/-- Summary computations of `create_summary_visualization`. -/
def create_summary_visualization (r : Results) : Summary :=
  let total := r.sk_frequencies.length
  { total_decisions := total
    avg_economic_value :=
      if r.sk_economic_values.isEmpty then 0 else mean r.sk_economic_values
    avg_processing_time :=
      if r.sk_processing_times.isEmpty then 0 else mean r.sk_processing_times
    freq_lines := fiveFrequencies.map fun f =>
      let c := countFor r.sk_frequencies f
      (f, c, if total > 0 then ((c : ℚ) / (total : ℚ)) * 100 else 0)
    econ_lines := (fiveFrequencies.filter fun f =>
        !(groupByFreq r.sk_frequencies r.sk_economic_values f).isEmpty).map
      fun f => (f, mean (groupByFreq r.sk_frequencies r.sk_economic_values f)) }

end Viz

/-- Outcome of `main` in either script. -/
inductive MainOutcome where
  | usageExit : MainOutcome
  | loadFailExit : MainOutcome
  | produced : MainOutcome
deriving DecidableEq, Repr

/-- Python truthiness of the loaded value as tested by `if not data`:
a load failure yields `None` (falsy) and a decoded empty array is also
falsy. -/
def pyTruthy : Option (List Item) → Bool
  | none => false
  | some l => !l.isEmpty

/-- Control flow of `main` in generate-dashboard.py, lines 541-562: exit on
missing argument, exit with the could-not-load message when the loaded data
is falsy, otherwise analyze and produce the artifact. -/
def Dashboard.main_outcome (argc : Nat) (loaded : Option (List Item)) : MainOutcome :=
  if argc < 2 then .usageExit
  else if pyTruthy loaded then .produced
  else .loadFailExit

/-- Control flow of `main` in visualize-benchmark-results.py, lines 260-284:
identical gating. -/
def Viz.main_outcome (argc : Nat) (loaded : Option (List Item)) : MainOutcome :=
  if argc < 2 then .usageExit
  else if pyTruthy loaded then .produced
  else .loadFailExit

/-- Concrete record with a frequency but no other field. -/
def itemPlain (f : String) : Item := ⟨some f, some "g", none, none, none, none, none⟩

/-- Concrete record with a frequency, a goal and an execution time. -/
def itemTimed (f et : String) : Item := ⟨some f, some "g", none, none, none, none, some et⟩

/-- Concrete record lacking the RecommendedFrequency field. -/
def itemNoFreq : Item := ⟨none, some "g", some "c", some 7, some "t", some false, some "xyz"⟩

/-- Concrete record with a frequency but no Goal field. -/
def itemNoGoal : Item := ⟨some "immediate", none, none, none, none, none, none⟩

/-- Concrete record with a frequency and an economic value. -/
def itemEcon : Item := ⟨some "immediate", some "g", none, some 50, none, none, none⟩

section Helpers

/-- Grouping by a frequency that occurs in neither list element yields the
empty group. -/
theorem groupByFreq_eq_nil {α : Type} (freqs : List String) (vals : List α)
    (f : String) (hf : f ∉ freqs) : groupByFreq freqs vals f = [] := by
  induction freqs generalizing vals with
  | nil => simp [groupByFreq]
  | cons a t ih =>
    cases vals with
    | nil => simp [groupByFreq]
    | cons v vs =>
      have ha : ¬(a == f) := by
        simp only [beq_iff_eq]
        rintro rfl
        exact hf (List.mem_cons_self a t)
      have ht : f ∉ t := fun h => hf (List.mem_cons_of_mem _ h)
      simpa [groupByFreq, List.zip_cons_cons, ha] using ih vs ht

/-- The parallel lists of the dashboard aggregate are built in lockstep:
one entry per qualifying record, except the processing times, which only
gain an entry when the record carries an execution time. -/
theorem Dashboard.dash_analyze_lengths :
    ∀ (data : List Item) (r : Dashboard.Results),
      Dashboard.analyze_data data = .ok r →
      r.sk_economic_values.length = r.sk_frequencies.length ∧
      r.goals.length = r.sk_frequencies.length ∧
      r.contexts.length = r.sk_frequencies.length ∧
      r.timestamps.length = r.sk_frequencies.length ∧
      r.successful.length = r.sk_frequencies.length ∧
      r.sk_processing_times.length ≤ r.sk_frequencies.length
  | [], r, h => by
    cases h
    simp
  | item :: rest, r, h => by
    rw [Dashboard.analyze_data] at h
    cases hf : item.recommendedFrequency with
    | none =>
      rw [hf] at h
      dsimp only at h
      exact Dashboard.dash_analyze_lengths rest r h
    | some freq =>
      rw [hf] at h
      dsimp only at h
      cases het : item.executionTime with
      | none =>
        rw [het] at h
        dsimp only at h
        cases hrest : Dashboard.analyze_data rest with
        | error e => rw [hrest] at h; cases h
        | ok r0 =>
          rw [hrest] at h
          cases h
          have ih := Dashboard.dash_analyze_lengths rest r0 hrest
          simpa using ⟨ih.1, ih.2.1, ih.2.2.1, ih.2.2.2.1, ih.2.2.2.2.1,
            Nat.le_succ_of_le ih.2.2.2.2.2⟩
      | some et =>
        rw [het] at h
        dsimp only at h
        cases hms : Dashboard.parseMs et with
        | error e => rw [hms] at h; cases h
        | ok ms =>
          rw [hms] at h
          dsimp only at h
          cases hrest : Dashboard.analyze_data rest with
          | error e => rw [hrest] at h; cases h
          | ok r0 =>
            rw [hrest] at h
            cases h
            have ih := Dashboard.dash_analyze_lengths rest r0 hrest
            simpa using ⟨ih.1, ih.2.1, ih.2.2.1, ih.2.2.2.1, ih.2.2.2.2.1,
              ih.2.2.2.2.2⟩

/-- The parallel lists of the visualization aggregate are built in lockstep:
one frequency and one economic value per qualifying record, and at most one
processing time. -/
theorem Viz.viz_analyze_lengths :
    ∀ (data : List Item) (r : Viz.Results),
      Viz.analyze_data data = .ok r →
      r.sk_economic_values.length = r.sk_frequencies.length ∧
      r.sk_processing_times.length ≤ r.sk_frequencies.length
  | [], r, h => by
    cases h
    simp
  | item :: rest, r, h => by
    rw [Viz.analyze_data] at h
    cases hf : item.recommendedFrequency with
    | none =>
      rw [hf] at h
      dsimp only at h
      exact Viz.viz_analyze_lengths rest r h
    | some freq =>
      rw [hf] at h
      dsimp only at h
      cases hg : item.goal with
      | none => rw [hg] at h; cases h
      | some g =>
        rw [hg] at h
        dsimp only at h
        cases het : item.executionTime with
        | none =>
          rw [het] at h
          dsimp only at h
          cases hrest : Viz.analyze_data rest with
          | error e => rw [hrest] at h; cases h
          | ok r0 =>
            rw [hrest] at h
            cases h
            have ih := Viz.viz_analyze_lengths rest r0 hrest
            simpa using ⟨ih.1, Nat.le_succ_of_le ih.2⟩
        | some et =>
          rw [het] at h
          dsimp only at h
          cases hms : Viz.parseMs et with
          | error e => rw [hms] at h; cases h
          | ok ms =>
            rw [hms] at h
            dsimp only at h
            cases hrest : Viz.analyze_data rest with
            | error e => rw [hrest] at h; cases h
            | ok r0 =>
              rw [hrest] at h
              cases h
              have ih := Viz.viz_analyze_lengths rest r0 hrest
              simpa using ⟨ih.1, ih.2⟩

/-- Each qualifying record (one containing RecommendedFrequency) contributes
exactly one entry to the frequency list of the dashboard aggregate. -/
theorem Dashboard.dash_analyze_freq_length :
    ∀ (data : List Item) (r : Dashboard.Results),
      Dashboard.analyze_data data = .ok r →
      r.sk_frequencies.length =
        data.countP fun it => it.recommendedFrequency.isSome
  | [], r, h => by
    cases h
    simp
  | item :: rest, r, h => by
    rw [Dashboard.analyze_data] at h
    cases hf : item.recommendedFrequency with
    | none =>
      rw [hf] at h
      dsimp only at h
      have ih := Dashboard.dash_analyze_freq_length rest r h
      simp [List.countP_cons, hf, ih]
    | some freq =>
      rw [hf] at h
      dsimp only at h
      cases het : item.executionTime with
      | none =>
        rw [het] at h
        dsimp only at h
        cases hrest : Dashboard.analyze_data rest with
        | error e => rw [hrest] at h; cases h
        | ok r0 =>
          rw [hrest] at h
          cases h
          have ih := Dashboard.dash_analyze_freq_length rest r0 hrest
          simp [List.countP_cons, hf, ih]
      | some et =>
        rw [het] at h
        dsimp only at h
        cases hms : Dashboard.parseMs et with
        | error e => rw [hms] at h; cases h
        | ok ms =>
          rw [hms] at h
          dsimp only at h
          cases hrest : Dashboard.analyze_data rest with
          | error e => rw [hrest] at h; cases h
          | ok r0 =>
            rw [hrest] at h
            cases h
            have ih := Dashboard.dash_analyze_freq_length rest r0 hrest
            simp [List.countP_cons, hf, ih]

/-- Each qualifying record contributes exactly one entry to the frequency
list of the visualization aggregate. -/
theorem Viz.viz_analyze_freq_length :
    ∀ (data : List Item) (r : Viz.Results),
      Viz.analyze_data data = .ok r →
      r.sk_frequencies.length =
        data.countP fun it => it.recommendedFrequency.isSome
  | [], r, h => by
    cases h
    simp
  | item :: rest, r, h => by
    rw [Viz.analyze_data] at h
    cases hf : item.recommendedFrequency with
    | none =>
      rw [hf] at h
      dsimp only at h
      have ih := Viz.viz_analyze_freq_length rest r h
      simp [List.countP_cons, hf, ih]
    | some freq =>
      rw [hf] at h
      dsimp only at h
      cases hg : item.goal with
      | none => rw [hg] at h; cases h
      | some g =>
        rw [hg] at h
        dsimp only at h
        cases het : item.executionTime with
        | none =>
          rw [het] at h
          dsimp only at h
          cases hrest : Viz.analyze_data rest with
          | error e => rw [hrest] at h; cases h
          | ok r0 =>
            rw [hrest] at h
            cases h
            have ih := Viz.viz_analyze_freq_length rest r0 hrest
            simp [List.countP_cons, hf, ih]
        | some et =>
          rw [het] at h
          dsimp only at h
          cases hms : Viz.parseMs et with
          | error e => rw [hms] at h; cases h
          | ok ms =>
            rw [hms] at h
            dsimp only at h
            cases hrest : Viz.analyze_data rest with
            | error e => rw [hrest] at h; cases h
            | ok r0 =>
              rw [hrest] at h
              cases h
              have ih := Viz.viz_analyze_freq_length rest r0 hrest
              simp [List.countP_cons, hf, ih]

/-- Removing a record that lacks RecommendedFrequency from anywhere in the
input leaves the dashboard aggregate unchanged. -/
theorem Dashboard.dash_analyze_skip (item : Item)
    (hitem : item.recommendedFrequency = none) :
    ∀ (pre post : List Item),
      Dashboard.analyze_data (pre ++ item :: post) =
        Dashboard.analyze_data (pre ++ post)
  | [], post => by
    rw [List.nil_append, List.nil_append, Dashboard.analyze_data, hitem]
  | a :: pre, post => by
    have ih := Dashboard.dash_analyze_skip item hitem pre post
    simp only [List.cons_append, Dashboard.analyze_data, List.append_eq, ih]

/-- Removing a record that lacks RecommendedFrequency from anywhere in the
input leaves the visualization aggregate unchanged. -/
theorem Viz.viz_analyze_skip (item : Item)
    (hitem : item.recommendedFrequency = none) :
    ∀ (pre post : List Item),
      Viz.analyze_data (pre ++ item :: post) = Viz.analyze_data (pre ++ post)
  | [], post => by
    rw [List.nil_append, List.nil_append, Viz.analyze_data, hitem]
  | a :: pre, post => by
    have ih := Viz.viz_analyze_skip item hitem pre post
    simp only [List.cons_append, Viz.analyze_data, List.append_eq, ih]

/-- The five per-category counts sum to the number of list entries whose
label is one of the five fixed labels. -/
theorem freqCounts_sum (l : List String) :
    (freqCounts l).sum = l.countP fun f => fiveFrequencies.contains f := by
  induction l with
  | nil => simp [freqCounts, countFor, fiveFrequencies]
  | cons a t ih =>
    simp only [freqCounts, countFor, fiveFrequencies, List.map_cons, List.map_nil,
      List.sum_cons, List.sum_nil, List.count_cons, List.countP_cons,
      List.contains_cons, List.contains_nil] at *
    by_cases h1 : a = "immediate" <;> by_cases h2 : a = "continuous" <;>
      by_cases h3 : a = "analysis" <;> by_cases h4 : a = "optimization" <;>
      by_cases h5 : a = "evolution" <;> simp_all <;> omega

/-- The success rate computed for any category lies between 0 and 100. -/
theorem rateFor_bounds (freqs : List String) (succ : List Bool) (f : String) :
    0 ≤ rateFor freqs succ f ∧ rateFor freqs succ f ≤ 100 := by
  unfold rateFor
  by_cases h : (groupByFreq freqs succ f).isEmpty
  · simp [h]
  · simp only [h, if_false]
    have hlen : 0 < ((groupByFreq freqs succ f).length : ℚ) := by
      have hne : groupByFreq freqs succ f ≠ [] := by
        intro hnil
        rw [hnil] at h
        simp at h
      have hpos : 0 < (groupByFreq freqs succ f).length :=
        List.length_pos.mpr hne
      exact_mod_cast hpos
    refine ⟨by positivity, ?_⟩
    have hc : ((groupByFreq freqs succ f).countP id : ℚ) ≤
        ((groupByFreq freqs succ f).length : ℚ) := by
      exact_mod_cast List.countP_le_length _
    have h1 : ((groupByFreq freqs succ f).countP id : ℚ) /
        ((groupByFreq freqs succ f).length : ℚ) ≤ 1 := by
      rw [div_le_one hlen]
      exact hc
    calc ((groupByFreq freqs succ f).countP id : ℚ) /
        ((groupByFreq freqs succ f).length : ℚ) * 100
        ≤ 1 * 100 := by
          exact mul_le_mul_of_nonneg_right h1 (by norm_num)
      _ = 100 := one_mul 100

end Helpers

/-- C4 counterexample: the claim asserts that both formats work in both
scripts, but the visualization script raises on the colon-separated string
"0:00:01.5", since its analyze_data applies the int conversion with no
fallback and no exception handler. -/
theorem C4_counterexample_viz_colon_raises :
    Viz.parseMs "0:00:01.5" = .error .valueError := by
  simp [Viz.parseMs, pyInt, pyReplace, pyReplaceFuel, listStartsWith, pyStrip,
    dropLeadingWs, splitSign, digitsToNat]

/-- C4 (amended): in the dashboard script execution-time parsing tries the
tick format first and the colon format second, and "100000 Ticks" converts
to 10.0 ms while "0:00:01.5" converts to 1500.0 ms; the visualization
script accepts only the tick format, converting "100000 Ticks" to
10.0 ms. -/
theorem C4_amended_conversion_values :
    Dashboard.parseMs "100000 Ticks" = .ok 10 ∧
    Dashboard.parseMs "0:00:01.5" = .ok 1500 ∧
    Viz.parseMs "100000 Ticks" = .ok 10 := by
  refine ⟨?_, ?_, ?_⟩
  · simp [Dashboard.parseMs, pyInt, pyReplace, pyReplaceFuel, listStartsWith, pyStrip,
      dropLeadingWs, splitSign, digitsToNat]
    norm_num
  · simp [Dashboard.parseMs, pyInt, pyFloat, pyReplace, pyReplaceFuel, listStartsWith,
      pySplit, pySplitChar, pyStrip, dropLeadingWs, splitSign, digitsToNat]
    norm_num
  · simp [Viz.parseMs, pyInt, pyReplace, pyReplaceFuel, listStartsWith, pyStrip,
      dropLeadingWs, splitSign, digitsToNat]
    norm_num

/-- C9: in both scripts a loaded value that is Python-falsy — `None` after a
load failure, or the successfully decoded empty array — takes the same
could-not-load branch of main and exits with status 1, producing no
artifact. -/
theorem C9_falsy_load_exits :
    Dashboard.main_outcome 2 (some []) = .loadFailExit ∧
    Viz.main_outcome 2 (some []) = .loadFailExit ∧
    Dashboard.main_outcome 2 none = .loadFailExit ∧
    Viz.main_outcome 2 none = .loadFailExit ∧
    pyTruthy (some []) = pyTruthy none := by
  decide

/-- C10: a record with RecommendedFrequency but no Goal field makes the
visualization analyze_data raise KeyError, while the dashboard analyze_data
processes the same record with the goal defaulting to the empty string. -/
theorem C10_missing_goal_divergence :
    Viz.analyze_data [itemNoGoal] = .error .keyError ∧
    ∃ rd : Dashboard.Results,
      Dashboard.analyze_data [itemNoGoal] = .ok rd ∧ rd.goals = [""] := by
  refine ⟨rfl, ⟨["immediate"], [0], [], [""], [""], [""], [true]⟩, ?_, rfl⟩
  simp [Dashboard.analyze_data, itemNoGoal, Except.map]

/-- C1 counterexample: one qualifying record whose frequency string is not
one of the five labels is counted by no category, so the per-category
counts sum to 0 while there is 1 qualifying record. -/
theorem C1_counterexample_offlist_label :
    ∃ rd : Dashboard.Results,
      Dashboard.analyze_data [itemPlain "weird"] = .ok rd ∧
      (freqCounts rd.sk_frequencies).sum = 0 ∧
      rd.sk_frequencies.length = 1 := by
  refine ⟨⟨["weird"], [0], [], ["g"], [""], [""], [true]⟩, ?_, ?_, rfl⟩
  · simp [Dashboard.analyze_data, itemPlain, Except.map]
  · decide

/-- C1 (amended): in both scripts the per-category counts over the five
fixed labels sum exactly to the number of qualifying records whose
frequency string is one of the five labels; each qualifying record (one
containing RecommendedFrequency) contributes exactly one frequency
entry. -/
theorem C1_amended_counts_sum (data : List Item)
    (rd : Dashboard.Results) (rv : Viz.Results)
    (hd : Dashboard.analyze_data data = .ok rd)
    (hv : Viz.analyze_data data = .ok rv) :
    ((freqCounts rd.sk_frequencies).sum =
      rd.sk_frequencies.countP fun f => fiveFrequencies.contains f) ∧
    ((freqCounts rv.sk_frequencies).sum =
      rv.sk_frequencies.countP fun f => fiveFrequencies.contains f) ∧
    (rd.sk_frequencies.length =
      data.countP fun it => it.recommendedFrequency.isSome) ∧
    (rv.sk_frequencies.length =
      data.countP fun it => it.recommendedFrequency.isSome) :=
  ⟨freqCounts_sum _, freqCounts_sum _,
   Dashboard.dash_analyze_freq_length data rd hd, Viz.viz_analyze_freq_length data rv hv⟩

/-- Witness for C1: the amended statement instantiated on a concrete mixed
input with an on-list and a skipped record. -/
theorem C1_amended_counts_sum_witness :
    Dashboard.analyze_data [itemPlain "immediate", itemNoFreq] =
      .ok ⟨["immediate"], [0], [], ["g"], [""], [""], [true]⟩ ∧
    Viz.analyze_data [itemPlain "immediate", itemNoFreq] =
      .ok ⟨["immediate"], [0], []⟩ ∧
    ((freqCounts (["immediate"] : List String)).sum =
      (["immediate"] : List String).countP fun f => fiveFrequencies.contains f) := by
  have hd : Dashboard.analyze_data [itemPlain "immediate", itemNoFreq] =
      .ok ⟨["immediate"], [0], [], ["g"], [""], [""], [true]⟩ := by
    simp [Dashboard.analyze_data, itemPlain, itemNoFreq, Except.map]
  have hv : Viz.analyze_data [itemPlain "immediate", itemNoFreq] =
      .ok ⟨["immediate"], [0], []⟩ := by
    simp [Viz.analyze_data, itemPlain, itemNoFreq, Except.map]
  exact ⟨hd, hv,
    (C1_amended_counts_sum [itemPlain "immediate", itemNoFreq] _ _ hd hv).1⟩

/-- C2 counterexample: on the malformed execution-time string "abc"
(accepted by neither format) the dashboard records 0 ms for the record
rather than dropping it, and the visualization script raises rather than
proceeding; on "a:b:c" (three colon-separated non-numeric parts) even the
dashboard raises. -/
theorem C2_counterexample_malformed_time :
    (∃ rd : Dashboard.Results,
      Dashboard.analyze_data [itemTimed "immediate" "abc"] = .ok rd ∧
      rd.sk_processing_times = [0]) ∧
    Viz.analyze_data [itemTimed "immediate" "abc"] = .error .valueError ∧
    Dashboard.analyze_data [itemTimed "immediate" "a:b:c"] =
      .error .valueError := by
  refine ⟨⟨⟨["immediate"], [0], [0], ["g"], [""], [""], [true]⟩, ?_, rfl⟩, ?_, ?_⟩
  · simp [Dashboard.analyze_data, itemTimed, Except.map, Dashboard.parseMs, pyInt,
      pyReplace, pyReplaceFuel, listStartsWith, pySplit, pySplitChar, pyStrip,
      dropLeadingWs, splitSign, digitsToNat]
  · simp [Viz.analyze_data, itemTimed, Viz.parseMs, pyInt, pyReplace, pyReplaceFuel,
      listStartsWith, pyStrip, dropLeadingWs, splitSign, digitsToNat]
  · simp [Dashboard.analyze_data, itemTimed, Dashboard.parseMs, pyInt, pyFloat,
      pyReplace, pyReplaceFuel, listStartsWith, pySplit, pySplitChar, pyStrip,
      dropLeadingWs, splitSign, digitsToNat]

/-- C2 (amended): for an ExecutionTime string rejected by the tick format,
the dashboard is non-fatal only when the colon split does not have exactly
three parts, and then records 0 ms for the record instead of dropping it;
the visualization script raises unconditionally. -/
theorem C2_amended_malformed_time (s : String)
    (hticks : pyInt (pyReplace s " Ticks" "") = none) :
    ((pySplit s ':').length ≠ 3 → Dashboard.parseMs s = .ok 0) ∧
    Viz.parseMs s = .error .valueError := by
  constructor
  · intro hlen
    unfold Dashboard.parseMs
    rw [hticks]
    dsimp only
    cases hsp : pySplit s ':' with
    | nil => rfl
    | cons a t =>
      cases t with
      | nil => rfl
      | cons b t2 =>
        cases t2 with
        | nil => rfl
        | cons c t3 =>
          cases t3 with
          | nil =>
            exfalso
            rw [hsp] at hlen
            simp at hlen
          | cons d t4 => rfl
  · unfold Viz.parseMs
    rw [hticks]

/-- Witness for C2: the amended statement instantiated on the concrete
malformed string "abc". -/
theorem C2_amended_malformed_time_witness :
    pyInt (pyReplace "abc" " Ticks" "") = none ∧
    (pySplit "abc" ':').length ≠ 3 ∧
    Dashboard.parseMs "abc" = .ok 0 ∧
    Viz.parseMs "abc" = .error .valueError := by
  have hticks : pyInt (pyReplace "abc" " Ticks" "") = none := by
    simp [pyInt, pyReplace, pyReplaceFuel, listStartsWith, pyStrip, dropLeadingWs,
      splitSign]
  have hlen : (pySplit "abc" ':').length ≠ 3 := by
    simp [pySplit, pySplitChar]
  exact ⟨hticks, hlen, (C2_amended_malformed_time "abc" hticks).1 hlen,
    (C2_amended_malformed_time "abc" hticks).2⟩

/-- C3: the code groups processing times with
`zip(sk_frequencies, sk_processing_times)`, but `sk_frequencies` has one
entry per qualifying record while `sk_processing_times` only has entries
for records carrying ExecutionTime, so the zip misaligns the two lists.
On an input whose first record ("immediate") has no ExecutionTime and
whose second record ("continuous") runs 100000 ticks = 10 ms, both scripts
attribute the 10 ms to "immediate" and report 0 for "continuous", whereas
the claim attributes each parsed time to the frequency of its own
record. -/
theorem C3_misattribution_eval :
    ∃ rd : Dashboard.Results, ∃ rv : Viz.Results,
      Dashboard.analyze_data
          [itemPlain "immediate", itemTimed "continuous" "100000 Ticks"] =
        .ok rd ∧
      Viz.analyze_data
          [itemPlain "immediate", itemTimed "continuous" "100000 Ticks"] =
        .ok rv ∧
      rd.sk_frequencies = ["immediate", "continuous"] ∧
      rd.sk_processing_times = [10] ∧
      Dashboard.create_processing_time_chart rd = some [10, 0, 0, 0, 0] ∧
      Viz.processing_time_chart rv = some [10, 0, 0, 0, 0] := by
  refine ⟨⟨["immediate", "continuous"], [0, 0], [10], ["g", "g"], ["", ""],
    ["", ""], [true, true]⟩, ⟨["immediate", "continuous"], [0, 0], [10]⟩,
    ?_, ?_, rfl, rfl, ?_, ?_⟩
  · simp [Dashboard.analyze_data, itemPlain, itemTimed, Except.map,
      Dashboard.parseMs, pyInt, pyReplace, pyReplaceFuel, listStartsWith, pyStrip,
      dropLeadingWs, splitSign, digitsToNat]
    norm_num
  · simp [Viz.analyze_data, itemPlain, itemTimed, Except.map, Viz.parseMs, pyInt,
      pyReplace, pyReplaceFuel, listStartsWith, pyStrip, dropLeadingWs, splitSign,
      digitsToNat]
    norm_num
  · simp [Dashboard.create_processing_time_chart, avgByFreq, avgFor, groupByFreq,
      mean, fiveFrequencies]
  · simp [Viz.processing_time_chart, avgByFreq, avgFor, groupByFreq, mean,
      fiveFrequencies]

/-- C5: a record lacking RecommendedFrequency is silently skipped by both
scripts wherever it occurs in the input: the whole aggregate — hence every
count, mean, success rate, chart and the sample-decisions table derived
from it — is the one computed from the input with that record removed. -/
theorem C5_skipped_record (item : Item)
    (hitem : item.recommendedFrequency = none) (pre post : List Item) :
    Dashboard.analyze_data (pre ++ item :: post) =
      Dashboard.analyze_data (pre ++ post) ∧
    Viz.analyze_data (pre ++ item :: post) = Viz.analyze_data (pre ++ post) ∧
    (Dashboard.analyze_data (pre ++ item :: post)).map
        Dashboard.generate_html_dashboard =
      (Dashboard.analyze_data (pre ++ post)).map
        Dashboard.generate_html_dashboard ∧
    (Viz.analyze_data (pre ++ item :: post)).map Viz.create_summary_visualization =
      (Viz.analyze_data (pre ++ post)).map Viz.create_summary_visualization := by
  have hd := Dashboard.dash_analyze_skip item hitem pre post
  have hv := Viz.viz_analyze_skip item hitem pre post
  exact ⟨hd, hv, by rw [hd], by rw [hv]⟩

/-- Witness for C5: the skip property instantiated on a concrete input with
the frequency-less record between two qualifying records. -/
theorem C5_skipped_record_witness :
    itemNoFreq.recommendedFrequency = none ∧
    Dashboard.analyze_data [itemPlain "immediate", itemNoFreq, itemEcon] =
      Dashboard.analyze_data [itemPlain "immediate", itemEcon] ∧
    Viz.analyze_data [itemPlain "immediate", itemNoFreq, itemEcon] =
      Viz.analyze_data [itemPlain "immediate", itemEcon] := by
  have h := C5_skipped_record itemNoFreq rfl [itemPlain "immediate"] [itemEcon]
  exact ⟨rfl, h.1, h.2.1⟩

/-- C6 counterexample: on an input with a single "immediate" record the
per-frequency economic-value views of the visualization script omit the
four empty categories instead of rendering them as zero: the box plot keeps
only the frequencies with data and the summary prints only one
economic-value line, not five. -/
theorem C6_counterexample_omitted_categories :
    ∃ rv : Viz.Results,
      Viz.analyze_data [itemEcon] = .ok rv ∧
      (Viz.create_summary_visualization rv).econ_lines = [("immediate", 50)] ∧
      Viz.create_economic_value_distribution rv = some [("immediate", [50])] ∧
      fiveFrequencies.length = 5 := by
  refine ⟨⟨["immediate"], [50], []⟩, ?_, ?_, ?_, rfl⟩
  · simp [Viz.analyze_data, itemEcon, Except.map]
  · simp [Viz.create_summary_visualization, groupByFreq, mean, fiveFrequencies]
  · simp [Viz.create_economic_value_distribution, groupByFreq, fiveFrequencies]

/-- C6 (amended): the count, average-value, average-time and success-rate
views of both scripts present all five categories in the fixed order, and a
category with zero occurrences is rendered as zero — except the
visualization box plot and the per-frequency economic-value lines of the
visualization summary, which omit categories with no data. -/
theorem C6_amended_fixed_order_zero_rendered (freqs : List String)
    (vals : List ℚ) (succ : List Bool) (rv : Viz.Results) (f : String)
    (_hf : f ∈ fiveFrequencies) (h0 : countFor freqs f = 0)
    (h0v : countFor rv.sk_frequencies f = 0) :
    (freqCounts freqs).length = 5 ∧
    (avgByFreq freqs vals).length = 5 ∧
    (successRates freqs succ).length = 5 ∧
    avgFor freqs vals f = 0 ∧
    rateFor freqs succ f = 0 ∧
    f ∉ (Viz.create_summary_visualization rv).econ_lines.map Prod.fst := by
  have hnf : f ∉ freqs := by
    rw [← List.count_eq_zero]
    exact h0
  have hnfv : f ∉ rv.sk_frequencies := by
    rw [← List.count_eq_zero]
    exact h0v
  have hgv : groupByFreq rv.sk_frequencies rv.sk_economic_values f = [] :=
    groupByFreq_eq_nil _ _ _ hnfv
  refine ⟨by simp [freqCounts, fiveFrequencies],
    by simp [avgByFreq, fiveFrequencies],
    by simp [successRates, fiveFrequencies],
    by simp [avgFor, groupByFreq_eq_nil freqs vals f hnf],
    by simp [rateFor, groupByFreq_eq_nil freqs succ f hnf], ?_⟩
  intro hmem
  simp only [Viz.create_summary_visualization, List.map_map, List.mem_map,
    List.mem_filter, Function.comp] at hmem
  obtain ⟨g, ⟨hg5, hgne⟩, hgf⟩ := hmem
  rw [show g = f from hgf] at hgne
  rw [hgv] at hgne
  simp at hgne

/-- Witness for C6: the amended statement instantiated at the empty
"evolution" category of a one-record aggregate. -/
theorem C6_amended_witness :
    "evolution" ∈ fiveFrequencies ∧
    countFor ["immediate"] "evolution" = 0 ∧
    avgFor ["immediate"] [50] "evolution" = 0 ∧
    rateFor ["immediate"] [true] "evolution" = 0 ∧
    "evolution" ∉ (Viz.create_summary_visualization
      ⟨["immediate"], [50], []⟩).econ_lines.map Prod.fst := by
  have h := C6_amended_fixed_order_zero_rendered ["immediate"] [50] [true]
    ⟨["immediate"], [50], []⟩ "evolution" (by decide) (by decide) (by decide)
  exact ⟨by decide, by decide, h.2.2.2.1, h.2.2.2.2.1, h.2.2.2.2.2⟩

/-- C7: the dashboard success-rate chart computes, for every category with
at least one qualifying record, exactly (number of category records with a
true success flag) / (category size) × 100, a value in [0, 100], and 0 for
an empty category; the success list is aligned one-to-one with the
frequency list, so the zip grouping pairs every qualifying record with its
own success flag. -/
theorem C7_success_rate (data : List Item) (r : Dashboard.Results)
    (h : Dashboard.analyze_data data = .ok r) (f : String) :
    r.successful.length = r.sk_frequencies.length ∧
    (groupByFreq r.sk_frequencies r.successful f = [] →
      rateFor r.sk_frequencies r.successful f = 0) ∧
    (groupByFreq r.sk_frequencies r.successful f ≠ [] →
      rateFor r.sk_frequencies r.successful f =
        ((groupByFreq r.sk_frequencies r.successful f).countP id : ℚ) /
          ((groupByFreq r.sk_frequencies r.successful f).length : ℚ) * 100) ∧
    0 ≤ rateFor r.sk_frequencies r.successful f ∧
    rateFor r.sk_frequencies r.successful f ≤ 100 := by
  refine ⟨(Dashboard.dash_analyze_lengths data r h).2.2.2.2.1, ?_, ?_,
    (rateFor_bounds _ _ _).1, (rateFor_bounds _ _ _).2⟩
  · intro hnil
    simp [rateFor, hnil]
  · intro hne
    have hemp : (groupByFreq r.sk_frequencies r.successful f).isEmpty = false := by
      cases hg : groupByFreq r.sk_frequencies r.successful f with
      | nil => exact absurd hg hne
      | cons x xs => rfl
    simp [rateFor, hemp]

/-- Witness for C7: the success-rate property instantiated on a concrete
one-record aggregate, where the rate for "immediate" is 1/1 × 100. -/
theorem C7_success_rate_witness :
    Dashboard.analyze_data [itemPlain "immediate"] =
      .ok ⟨["immediate"], [0], [], ["g"], [""], [""], [true]⟩ ∧
    0 ≤ rateFor ["immediate"] [true] "immediate" ∧
    rateFor ["immediate"] [true] "immediate" ≤ 100 := by
  have hd : Dashboard.analyze_data [itemPlain "immediate"] =
      .ok ⟨["immediate"], [0], [], ["g"], [""], [""], [true]⟩ := by
    simp [Dashboard.analyze_data, itemPlain, Except.map]
  have h := C7_success_rate [itemPlain "immediate"] _ hd "immediate"
  exact ⟨hd, h.2.2.2.1, h.2.2.2.2⟩

/-- C8: when the aggregate holds zero qualifying records, both renderers
proceed and produce all-zero summary metrics (total decisions, average
economic value, average processing time, success rate, the five per-category
counts and percentages, empty sample table), and only the charts that need
at least one data point — the processing-time charts and the economic-value
box plot — are skipped. -/
theorem C8_empty_aggregate (data : List Item) (rd : Dashboard.Results)
    (rv : Viz.Results) (hd : Dashboard.analyze_data data = .ok rd)
    (hv : Viz.analyze_data data = .ok rv) (hqd : rd.sk_frequencies = [])
    (hqv : rv.sk_frequencies = []) :
    Dashboard.generate_html_dashboard rd =
      ⟨0, 0, 0, 0, fiveFrequencies.map (fun f => (f, 0, 0)), []⟩ ∧
    Dashboard.create_processing_time_chart rd = none ∧
    freqCounts rd.sk_frequencies = [0, 0, 0, 0, 0] ∧
    Viz.create_summary_visualization rv =
      ⟨0, 0, 0, fiveFrequencies.map (fun f => (f, 0, 0)), []⟩ ∧
    Viz.create_economic_value_distribution rv = none ∧
    Viz.processing_time_chart rv = none := by
  obtain ⟨h1, h2, h3, h4, h5, h6⟩ := Dashboard.dash_analyze_lengths data rd hd
  rw [hqd] at h1 h2 h3 h4 h5 h6
  simp only [List.length_nil, Nat.le_zero, List.length_eq_zero] at h1 h2 h3 h4 h5 h6
  obtain ⟨hv1, hv2⟩ := Viz.viz_analyze_lengths data rv hv
  rw [hqv] at hv1 hv2
  simp only [List.length_nil, Nat.le_zero, List.length_eq_zero] at hv1 hv2
  refine ⟨?_, ?_, ?_, ?_, ?_, ?_⟩
  · simp [Dashboard.generate_html_dashboard, hqd, h1, h2, h3, h4, h5, h6,
      countFor, fiveFrequencies]
  · simp [Dashboard.create_processing_time_chart, h6]
  · simp [freqCounts, countFor, hqd, fiveFrequencies]
  · simp [Viz.create_summary_visualization, hqv, hv1, hv2, countFor,
      fiveFrequencies, groupByFreq]
  · simp [Viz.create_economic_value_distribution, hqv, groupByFreq,
      fiveFrequencies]
  · simp [Viz.processing_time_chart, hv2]

/-- Witness for C8: the empty-aggregate property instantiated on an input
whose only record lacks the frequency field, so zero records qualify. -/
theorem C8_empty_aggregate_witness :
    Dashboard.analyze_data [itemNoFreq] = .ok ⟨[], [], [], [], [], [], []⟩ ∧
    Viz.analyze_data [itemNoFreq] = .ok ⟨[], [], []⟩ ∧
    Dashboard.create_processing_time_chart ⟨[], [], [], [], [], [], []⟩ = none ∧
    Viz.create_economic_value_distribution ⟨[], [], []⟩ = none := by
  have hd : Dashboard.analyze_data [itemNoFreq] =
      .ok ⟨[], [], [], [], [], [], []⟩ := by
    simp [Dashboard.analyze_data, itemNoFreq]
  have hv : Viz.analyze_data [itemNoFreq] = .ok ⟨[], [], []⟩ := by
    simp [Viz.analyze_data, itemNoFreq]
  have h := C8_empty_aggregate [itemNoFreq] _ _ hd hv rfl rfl
  exact ⟨hd, hv, h.2.1, h.2.2.2.2.1⟩
